import Mathlib

/-
Verification of the ECS Fargate construct library.

This file gives a shallow embedding of the two topology-compiling constructs
of the repository:

  * `MultiServiceECSFargateLoadBalancedConstruct`
    (src/lib/constructs/MultiServiceECSFargateLoadBalancedConstruct.ts), and
  * `SingleServicePrivateECSFargateConstruct`
    (src/lib/constructs/SingleServicePrivateECSFargateConstruct.ts).

The constructor of each construct is modelled as a function from its props to
`Except String (List Resource)`: the ordered list of CDK resources the
constructor instantiates, or the error it throws.  Zod schema validation is
modelled by boolean validators mirroring the zod schemas field by field.
JavaScript `||`-defaulting (where `0` and `""` are falsy) is modelled by
`jsOrInt` / `jsOrStr`; object spread (`{...a, ...b}`) by `spreadMerge`.
The CDK rule that two constructs in one scope may not share an id is
modelled by `addAll`, which threads the list of already-created construct
paths and fails on a duplicate, exactly as the addChild method of the
constructs library throws.
-/

namespace ECSConstructs

/-- Models the JavaScript expression `x || d` for an optional number:
`undefined` and `0` are falsy and fall through to the default. -/
def jsOrInt (x : Option Int) (d : Int) : Int :=
  match x with
  | none => d
  | some v => if v = 0 then d else v

/-- Models the JavaScript expression `x || d` for an optional string:
`undefined` and the empty string are falsy and fall through to the default. -/
def jsOrStr (x : Option String) (d : String) : String :=
  match x with
  | none => d
  | some s => if s = "" then d else s

/-- Models the zod `.startsWith(p)` string refinement (a prefix test). -/
def strStartsWith (s p : String) : Bool :=
  s.data.take p.data.length == p.data

/-- Models the JavaScript object spread `{ ...base, ...user }`: keys of `base`
keep their position but a user value with the same key overwrites the base
value, and keys only found in `user` are appended in order. -/
def spreadMerge (base user : List (String × String)) : List (String × String) :=
  base.map (fun kv => (kv.1, (List.lookup kv.1 user).getD kv.2)) ++
    user.filter (fun kv => (List.lookup kv.1 base).isNone)

/-- The CDK `RemovalPolicy` enum (aws-cdk-lib). -/
inductive RemovalPolicy
  | destroy
  | retain
  | snapshot
  | retainOnUpdateOrDelete
  deriving DecidableEq

/-- The CDK `RetentionDays` enum (aws-cdk-lib/aws-logs), restricted to the
members this development needs. -/
inductive RetentionDays
  | oneDay
  | oneWeek
  | twoWeeks
  | oneMonth
  | threeMonths
  | oneYear
  | infiniteRetention
  deriving DecidableEq

/-- The `image` block of `ECSServiceConfig`. -/
structure ImageConfig where
  path : String
  name : Option String
  labels : Option (List (String × String))
  deriving DecidableEq

/-- The `healthCheckConfig` block of `ECSServiceConfig` (multi-service
variant): path plus four optional timing fields. -/
structure HealthCheckConfig where
  path : String
  intervalSeconds : Option Int
  timeoutSeconds : Option Int
  retries : Option Int
  startPeriodSeconds : Option Int
  deriving DecidableEq

/-- The optional `fargateConfig` block. -/
structure FargateConfig where
  cpu : Option Int
  memoryLimitMiB : Option Int
  deriving DecidableEq

/-- The optional `logGroupConfig` block. -/
structure LogGroupConfig where
  logGroupName : String
  removalPolicy : RemovalPolicy
  retention : RetentionDays
  deriving DecidableEq

/-- The optional `autoScalingConfig` block. -/
structure AutoScalingConfig where
  minCapacity : Int
  maxCapacity : Int
  targetCpuUtilization : Option Int
  targetMemoryUtilization : Option Int
  deriving DecidableEq

/-- Structure `ECSServiceConfig` from MultiServiceECSFargateLoadBalancedConstruct.ts:
one service of the multi-service topology. -/
structure ECSServiceConfig where
  name : String
  port : Int
  desiredCount : Int
  version : String
  envVariables : List (String × String)
  priority : Int
  image : ImageConfig
  healthCheckConfig : HealthCheckConfig
  fargateConfig : Option FargateConfig
  logGroupConfig : Option LogGroupConfig
  autoScalingConfig : Option AutoScalingConfig
  deriving DecidableEq

/-- Props of the multi-service construct.  The VPC handle is opaque to the
compiler and carries no data the compiled plan depends on, so it is omitted;
`region` (read from the enclosing stack) is passed separately. -/
structure MultiServiceECSFargateLoadBalancedConstructProps where
  appName : String
  tagEnv : String
  hostedZoneId : String
  domainName : String
  apiSubdomainName : String
  ecsServices : List ECSServiceConfig
  deriving DecidableEq

/-- The `service` block of the single-service private construct
(SingleServicePrivateECSFargateConstruct.ts): note the flat
`healthCheckPath` field and the absence of `priority` and autoscaling. -/
structure ECSServiceProps where
  name : String
  port : Int
  desiredCount : Int
  version : String
  envVariables : List (String × String)
  image : ImageConfig
  healthCheckPath : String
  fargateConfig : Option FargateConfig
  logGroupConfig : Option LogGroupConfig
  deriving DecidableEq

/-- Props of the single-service private construct.  The VPC handle is kept
only as its CIDR block, which the construct reads for the ingress rule. -/
structure SingleServicePrivateECSFargateConstructProps where
  appName : String
  tagEnv : String
  vpcCidrBlock : String
  service : ECSServiceProps
  deriving DecidableEq

/- Zod schemas, modelled as boolean validators. -/

/-- Allowed `cpu` literals of the fargate-config zod union. -/
def fargateCpuValues : List Int := [256, 512, 1024, 2048, 4096]

/-- Allowed `memoryLimitMiB` literals of the fargate-config zod union. -/
def fargateMemoryValues : List Int :=
  [512, 1024, 2048, 3072, 4096, 5120, 6144, 7168, 8192, 16384, 30720]

/-- Validation of the optional fargate block: each field, when present, must
be drawn from its fixed enumeration. -/
def FargateConfigSchema : Option FargateConfig → Bool
  | none => true
  | some fc =>
      (match fc.cpu with
       | none => true
       | some v => fargateCpuValues.contains v) &&
      (match fc.memoryLimitMiB with
       | none => true
       | some v => fargateMemoryValues.contains v)

/-- Validation of the optional log-group block (`logGroupName` non-empty;
the enum fields are well-typed by construction). -/
def LogGroupConfigSchema : Option LogGroupConfig → Bool
  | none => true
  | some lg => decide (1 ≤ lg.logGroupName.length)

/-- Validation of an optional scaling-target percentage: `min(1).max(100)`. -/
def targetUtilizationOk : Option Int → Bool
  | none => true
  | some v => decide (1 ≤ v) && decide (v ≤ 100)

/-- Validation of the optional autoscaling block. -/
def AutoScalingConfigSchema : Option AutoScalingConfig → Bool
  | none => true
  | some c =>
      decide (1 ≤ c.minCapacity) && decide (1 ≤ c.maxCapacity) &&
      targetUtilizationOk c.targetCpuUtilization &&
      targetUtilizationOk c.targetMemoryUtilization

/-- Validation of the health-check block: non-empty path starting with `/`.
The four timing fields are plain optional numbers with no constraint. -/
def HealthCheckConfigSchema (hc : HealthCheckConfig) : Bool :=
  decide (1 ≤ hc.path.length) && strStartsWith hc.path ("/")

/-- Validation of the image block: non-empty path. -/
def ImageConfigSchema (img : ImageConfig) : Bool :=
  decide (1 ≤ img.path.length)

/-- The zod schema `ECSServiceConfigSchema` of the multi-service construct. -/
def ECSServiceConfigSchema (c : ECSServiceConfig) : Bool :=
  decide (1 ≤ c.name.length) &&
  decide (1 ≤ c.port) && decide (c.port ≤ 65535) &&
  decide (1 ≤ c.desiredCount) &&
  decide (1 ≤ c.version.length) &&
  ImageConfigSchema c.image &&
  HealthCheckConfigSchema c.healthCheckConfig &&
  FargateConfigSchema c.fargateConfig &&
  LogGroupConfigSchema c.logGroupConfig &&
  AutoScalingConfigSchema c.autoScalingConfig

/-- The zod schema `MultiServiceECSFargateLoadBalancedConstructPropsSchema`:
app name at least 3 characters, remaining strings non-empty, at least one
service, every service valid.  Note: no uniqueness constraint on service
names or priorities. -/
def MultiServiceECSFargateLoadBalancedConstructPropsSchema
    (p : MultiServiceECSFargateLoadBalancedConstructProps) : Bool :=
  decide (3 ≤ p.appName.length) &&
  decide (1 ≤ p.tagEnv.length) &&
  decide (1 ≤ p.hostedZoneId.length) &&
  decide (1 ≤ p.domainName.length) &&
  decide (1 ≤ p.apiSubdomainName.length) &&
  decide (1 ≤ p.ecsServices.length) &&
  p.ecsServices.all ECSServiceConfigSchema

/-- The zod schema `ECSServicePropsSchema` of the single-service construct. -/
def ECSServicePropsSchema (c : ECSServiceProps) : Bool :=
  decide (1 ≤ c.name.length) &&
  decide (1 ≤ c.port) && decide (c.port ≤ 65535) &&
  decide (1 ≤ c.desiredCount) &&
  decide (1 ≤ c.version.length) &&
  ImageConfigSchema c.image &&
  (decide (1 ≤ c.healthCheckPath.length) && strStartsWith c.healthCheckPath ("/")) &&
  FargateConfigSchema c.fargateConfig &&
  LogGroupConfigSchema c.logGroupConfig

/-- The zod schema `SingleServicePrivateECSFargateConstructPropsSchema`. -/
def SingleServicePrivateECSFargateConstructPropsSchema
    (p : SingleServicePrivateECSFargateConstructProps) : Bool :=
  decide (3 ≤ p.appName.length) &&
  decide (1 ≤ p.tagEnv.length) &&
  ECSServicePropsSchema p.service

/- The resource model: what the constructors instantiate. -/

/-- The source of the single ingress rule of the security group of a
service: the security group of the load balancer (multi-service variant)
or the CIDR block of the VPC (private variant). -/
inductive IngressSource
  | loadBalancerSecurityGroup
  | vpcCidr (cidrBlock : String)
  deriving DecidableEq

/-- A container health check after default resolution. -/
structure ResolvedHealthCheck where
  path : String
  intervalSeconds : Int
  timeoutSeconds : Int
  retries : Int
  startPeriodSeconds : Int
  deriving DecidableEq

/-- Descriptor of one CDK resource the constructors instantiate, carrying
the properties relevant to the spec. -/
inductive ResourceDesc
  | hostedZoneLookup (hostedZoneId zoneName : String)
  | certificate (domainName : String) (subjectAlternativeNames : List String)
  | cluster (clusterName : String)
  | loadBalancer (loadBalancerName : String) (internetFacing : Bool)
  | aliasRecord (recordName : String)
  | stringParameter (parameterName : String)
  | httpsListener (port : Int) (defaultFixedResponseStatus : Int)
  | httpListener (port : Int) (redirectToPort : Int)
  | taskDefinition (family : String) (cpu : Int) (memoryLimitMiB : Int)
  | logGroup (logGroupName : String) (removalPolicy : RemovalPolicy)
      (retention : RetentionDays)
  | container (containerName : String) (environment : List (String × String))
      (dockerLabels : List (String × String)) (containerPort : Int)
      (healthCheck : ResolvedHealthCheck) (healthCommand : String)
      (dockerfileName : String) (imagePath : String)
  | securityGroup (ingressSource : IngressSource) (ingressPort : Int)
      (allowAllOutbound : Bool)
  | fargateService (serviceName : String) (desiredCount : Int)
      (assignPublicIp : Bool)
  | listenerTargets (targetGroupName : String) (port : Int)
      (pathPattern : String) (priority : Int) (healthCheckPath : String)
      (healthCheckIntervalSeconds : Int) (healthCheckTimeoutSeconds : Int)
  | scalableTarget (minCapacity : Int) (maxCapacity : Int)
  | cpuScaling (targetUtilizationPercent : Int)
  | memoryScaling (targetUtilizationPercent : Int)
  deriving DecidableEq

/-- One instantiated resource: its construct path (the chain of construct
ids from the construct root) and its descriptor. -/
structure Resource where
  path : List String
  desc : ResourceDesc
  deriving DecidableEq

/-- Sequentially creates resources, enforcing the CDK rule that no two
constructs in one tree may share a construct path: `Node.addChild` throws
on a duplicate id, aborting the whole synthesis. -/
def addAll (acc : List Resource) : List Resource → Except String (List Resource)
  | [] => .ok acc
  | r :: t =>
      if r.path ∈ acc.map Resource.path then
        .error ("There is already a Construct with this id in the scope")
      else
        addAll (acc ++ [r]) t

/- Default resolution and derived values, from the constructor bodies. -/

/-- Resolution of the container health-check timing fields, from lines
462-468 of the multi-service construct: each field independently resolves
with JavaScript `||` against the built-in defaults 30/5/3/30. -/
def resolveHealthCheck (hc : HealthCheckConfig) : ResolvedHealthCheck :=
  { path := hc.path
    intervalSeconds := jsOrInt hc.intervalSeconds 30
    timeoutSeconds := jsOrInt hc.timeoutSeconds 5
    retries := jsOrInt hc.retries 3
    startPeriodSeconds := jsOrInt hc.startPeriodSeconds 30 }

/-- The three auto-injected environment entries, computed from the
own port, name and version of the service. -/
def autoEnv (port : Int) (name version : String) : List (String × String) :=
  [("PORT", toString port), ("SERVICE_NAME", name), ("API_VERSION", version)]

/-- The resolved container environment: the auto-injected entries spread
first, then the user map spread over them (user wins on key collision). -/
def mergedEnvironment (port : Int) (name version : String)
    (user : List (String × String)) : List (String × String) :=
  spreadMerge (autoEnv port name version) user

/-- The docker-label triple used when `image.labels` is omitted. -/
def defaultDockerLabels (clusterName name version : String) :
    List (String × String) :=
  [("cluster", clusterName), ("service", name), ("version", version)]

/-- The shell probe command emitted into the container health check. -/
def healthProbeCommand (port : Int) (path : String) : String :=
  "curl -f http://localhost:" ++ toString port ++ path ++ " || exit 1"

/-- The Fargate task definition of one service: CPU and memory resolved
with JavaScript `||` against 512 / 1024. -/
def taskDefinitionResource (name : String) (fc : Option FargateConfig) :
    Resource :=
  ⟨[name ++ "-task-definition"],
    .taskDefinition (name ++ "-task-family")
      (jsOrInt (fc.bind (fun c => c.cpu)) 512)
      (jsOrInt (fc.bind (fun c => c.memoryLimitMiB)) 1024)⟩

/-- The log group of one service: the user block if supplied (objects are
always truthy), else the generated default block. -/
def logGroupResource (name : String) (lgc : Option LogGroupConfig) :
    Resource :=
  ⟨[name ++ "-log-group"],
    .logGroup
      (lgc.getD ⟨name ++ "-log-group", .destroy, .twoWeeks⟩).logGroupName
      (lgc.getD ⟨name ++ "-log-group", .destroy, .twoWeeks⟩).removalPolicy
      (lgc.getD ⟨name ++ "-log-group", .destroy, .twoWeeks⟩).retention⟩

/-- The container added to the task definition of a service. -/
def containerResource (taskDefinitionId clusterName name version : String)
    (port : Int) (userEnv : List (String × String)) (image : ImageConfig)
    (hc : ResolvedHealthCheck) : Resource :=
  ⟨[taskDefinitionId, name ++ "-container"],
    .container (name ++ "-container")
      (mergedEnvironment port name version userEnv)
      (image.labels.getD (defaultDockerLabels clusterName name version))
      port hc (healthProbeCommand port hc.path)
      (jsOrStr image.name ("Dockerfile")) image.path⟩

/-- The security group of one service: allow-all egress and exactly one
ingress rule on the service port from the given source. -/
def securityGroupResource (name : String) (src : IngressSource)
    (port : Int) : Resource :=
  ⟨[name ++ "-security-group"], .securityGroup src port true⟩

/-- The Fargate service itself. -/
def fargateServiceResource (appName name : String) (desiredCount : Int)
    (assignPublicIp : Bool) : Resource :=
  ⟨[appName ++ "-" ++ name ++ "-service"],
    .fargateService name desiredCount assignPublicIp⟩

/-- The target group registered under the shared HTTPS listener by
`addTargets`: derived path pattern, the explicit priority of the service,
the translated health check. -/
def listenerRuleResource (appName tagEnv : String) (svc : ECSServiceConfig) :
    Resource :=
  ⟨[appName ++ "-" ++ tagEnv ++ "-load-balancer",
    appName ++ "-https-listener",
    appName ++ "-" ++ svc.name ++ "-tg"],
    .listenerTargets (appName ++ "-" ++ svc.name ++ "-tg") svc.port
      ("/" ++ svc.name ++ "/" ++ svc.version ++ "/*") svc.priority
      (resolveHealthCheck svc.healthCheckConfig).path
      (resolveHealthCheck svc.healthCheckConfig).intervalSeconds
      (resolveHealthCheck svc.healthCheckConfig).timeoutSeconds⟩

/-- The optional autoscaling resources of one service: bounds whenever the
block exists, a CPU policy when `targetCpuUtilization` is truthy, a memory
policy when `targetMemoryUtilization` is truthy. -/
def scalingResources (appName name : String) :
    Option AutoScalingConfig → List Resource
  | none => []
  | some cfg =>
      ⟨[appName ++ "-" ++ name ++ "-service", "TaskCount", "Target"],
        .scalableTarget cfg.minCapacity cfg.maxCapacity⟩ ::
      ((match cfg.targetCpuUtilization with
        | none => []
        | some v =>
            if v = 0 then []
            else
              [⟨[appName ++ "-" ++ name ++ "-service", "TaskCount", "Target",
                 appName ++ "-" ++ name ++ "-cpu-scaling"], .cpuScaling v⟩]) ++
       (match cfg.targetMemoryUtilization with
        | none => []
        | some v =>
            if v = 0 then []
            else
              [⟨[appName ++ "-" ++ name ++ "-service", "TaskCount", "Target",
                 appName ++ "-" ++ name ++ "-memory-scaling"],
                .memoryScaling v⟩]))

/-- All resources instantiated for one service of the multi-service
topology, in source order. -/
def serviceResources (appName tagEnv : String) (svc : ECSServiceConfig) :
    List Resource :=
  [taskDefinitionResource svc.name svc.fargateConfig,
   logGroupResource svc.name svc.logGroupConfig,
   containerResource (svc.name ++ "-task-definition") (appName ++ "-cluster")
     svc.name svc.version svc.port svc.envVariables svc.image
     (resolveHealthCheck svc.healthCheckConfig),
   securityGroupResource svc.name .loadBalancerSecurityGroup svc.port,
   fargateServiceResource appName svc.name svc.desiredCount true,
   listenerRuleResource appName tagEnv svc] ++
  scalingResources appName svc.name svc.autoScalingConfig

/-- The shared resources of the multi-service topology, in source order:
hosted-zone lookup, wildcard certificate, cluster, load balancer, alias
record, two SSM parameters, HTTPS listener with a 404 default, HTTP
redirect listener. -/
def sharedResources (p : MultiServiceECSFargateLoadBalancedConstructProps)
    (region : String) : List Resource :=
  [⟨[p.appName ++ "-hosted-zone-lookup"],
     .hostedZoneLookup p.hostedZoneId p.domainName⟩,
   ⟨[p.appName ++ "-ssl-certificate"],
     .certificate ("*." ++ p.tagEnv ++ "." ++ p.domainName)
       [p.apiSubdomainName ++ "." ++ p.domainName]⟩,
   ⟨[p.appName ++ "-cluster"], .cluster (p.appName ++ "-cluster")⟩,
   ⟨[p.appName ++ "-" ++ p.tagEnv ++ "-load-balancer"],
     .loadBalancer (p.appName ++ "-" ++ p.tagEnv ++ "-load-balancer") true⟩,
   ⟨[p.appName ++ "-alias-record-" ++ region],
     .aliasRecord (p.apiSubdomainName ++ "." ++ p.domainName)⟩,
   ⟨[p.appName ++ "-" ++ region ++ "-load-balancer-arn"],
     .stringParameter ("/" ++ p.appName ++ "/load-balancer-arn")⟩,
   ⟨[p.appName ++ "-" ++ region ++ "-load-balancer-security-group-id"],
     .stringParameter ("/" ++ p.appName ++ "/load-balancer-security-group-id")⟩,
   ⟨[p.appName ++ "-" ++ p.tagEnv ++ "-load-balancer",
     p.appName ++ "-https-listener"], .httpsListener 443 404⟩,
   ⟨[p.appName ++ "-" ++ p.tagEnv ++ "-load-balancer",
     p.appName ++ "-http-listener"], .httpListener 80 443⟩]

/-- All resources of the multi-service topology, in creation order. -/
def multiResources (p : MultiServiceECSFargateLoadBalancedConstructProps)
    (region : String) : List Resource :=
  sharedResources p region ++
    p.ecsServices.flatMap (serviceResources p.appName p.tagEnv)

/-- The multi-service constructor: validates the props with the zod schema
first (throwing before any resource is derived on failure), then
instantiates the shared resources and the resources of each service in order. -/
def MultiServiceECSFargateLoadBalancedConstruct
    (p : MultiServiceECSFargateLoadBalancedConstructProps)
    (region : String) : Except String (List Resource) :=
  if MultiServiceECSFargateLoadBalancedConstructPropsSchema p then
    addAll [] (multiResources p region)
  else
    .error ("Invalid input properties for MultiServiceECSFargateLoadBalancedConstruct.")

/-- The cluster of the single-service private topology. -/
def singleClusterResource
    (p : SingleServicePrivateECSFargateConstructProps) : Resource :=
  ⟨[p.appName ++ "-cluster"], .cluster (p.appName ++ "-cluster")⟩

/-- The per-service resources of the single-service private topology, in
source order: task definition, log group, container (health-check timings
hard-coded to 30/5/3/30), security group with VPC-internal ingress, and a
non-public Fargate service. -/
def singleServiceResources
    (p : SingleServicePrivateECSFargateConstructProps) : List Resource :=
  [taskDefinitionResource p.service.name p.service.fargateConfig,
   logGroupResource p.service.name p.service.logGroupConfig,
   containerResource (p.service.name ++ "-task-definition")
     (p.appName ++ "-cluster") p.service.name p.service.version
     p.service.port p.service.envVariables p.service.image
     ⟨p.service.healthCheckPath, 30, 5, 3, 30⟩,
   securityGroupResource p.service.name (.vpcCidr p.vpcCidrBlock)
     p.service.port,
   fargateServiceResource p.appName p.service.name p.service.desiredCount
     false]

/-- The single-service private constructor: validates the props, creates
the cluster, re-validates the service block (as the source does), then
instantiates the resources of the service.  No load balancer, certificate, DNS
record or listener is ever created on this path. -/
def SingleServicePrivateECSFargateConstruct
    (p : SingleServicePrivateECSFargateConstructProps) :
    Except String (List Resource) :=
  if SingleServicePrivateECSFargateConstructPropsSchema p then
    (addAll [] [singleClusterResource p]).bind (fun acc =>
      if ECSServicePropsSchema p.service then
        addAll acc (singleServiceResources p)
      else
        .error ("Service props validation failed"))
  else
    .error ("Invalid input properties for SingleServicePrivateECSFargateConstruct")

/- Observation helpers over a resource list. -/

/-- The environments of all containers in a resource list. -/
def containerEnvironments (rs : List Resource) :
    List (List (String × String)) :=
  rs.filterMap (fun r =>
    match r.desc with
    | .container _ env _ _ _ _ _ _ => some env
    | _ => none)

/-- The docker labels of all containers in a resource list. -/
def containerLabels (rs : List Resource) : List (List (String × String)) :=
  rs.filterMap (fun r =>
    match r.desc with
    | .container _ _ labels _ _ _ _ _ => some labels
    | _ => none)

/-- The CPU-target scaling policies in a resource list. -/
def cpuScalingPolicies (rs : List Resource) : List Int :=
  rs.filterMap (fun r =>
    match r.desc with
    | .cpuScaling v => some v
    | _ => none)

/-- The memory-target scaling policies in a resource list. -/
def memoryScalingPolicies (rs : List Resource) : List Int :=
  rs.filterMap (fun r =>
    match r.desc with
    | .memoryScaling v => some v
    | _ => none)

/-- The (min, max) capacity bounds of scalable targets in a resource list. -/
def scalableTargetBounds (rs : List Resource) : List (Int × Int) :=
  rs.filterMap (fun r =>
    match r.desc with
    | .scalableTarget lo hi => some (lo, hi)
    | _ => none)

/-- Whether a resource descriptor is part of the public routing machinery:
a certificate, DNS record, load balancer, listener, or listener rule. -/
def isRoutingInfra (d : ResourceDesc) : Bool :=
  match d with
  | .certificate _ _ => true
  | .aliasRecord _ => true
  | .loadBalancer _ _ => true
  | .httpsListener _ _ => true
  | .httpListener _ _ => true
  | .listenerTargets _ _ _ _ _ _ _ => true
  | _ => false

/-- Rewrites the listener priority of every service with `f`, leaving all other
fields unchanged. -/
def setPriorities (f : Int → Int)
    (p : MultiServiceECSFargateLoadBalancedConstructProps) :
    MultiServiceECSFargateLoadBalancedConstructProps :=
  { p with ecsServices :=
      p.ecsServices.map (fun s => { s with priority := f s.priority }) }

/- Concrete sample inputs, used to instantiate the theorems below. -/

/-- A health-check block supplying only the path. -/
def wHC : HealthCheckConfig :=
  { path := "/health", intervalSeconds := none, timeoutSeconds := none,
    retries := none, startPeriodSeconds := none }

/-- A minimal valid service of the multi-service topology. -/
def wSvcA : ECSServiceConfig :=
  { name := "auth-service", port := 8080, desiredCount := 2, version := "v1",
    envVariables := [("NODE_ENV", "production")], priority := 5,
    image := { path := "src/a", name := none, labels := none },
    healthCheckConfig := wHC, fargateConfig := none, logGroupConfig := none,
    autoScalingConfig := none }

/-- A second valid service, sharing listener priority 5 with `wSvcA`. -/
def wSvcB : ECSServiceConfig :=
  { wSvcA with name := "pay-service", port := 8081 }

/-- A service whose image supplies an explicit labels map. -/
def wSvcLabeled : ECSServiceConfig :=
  { wSvcA with image := ⟨"src/a", none, some [("team", "core")]⟩ }

/-- A service whose autoscaling block targets only memory utilization. -/
def wSvcMemScale : ECSServiceConfig :=
  { wSvcA with autoScalingConfig := some ⟨1, 3, none, some 80⟩ }

/-- A service that explicitly supplies 0 for the health-check interval. -/
def wSvcZeroInterval : ECSServiceConfig :=
  { wSvcA with healthCheckConfig := { wHC with intervalSeconds := some 0 } }

/-- Valid multi-service props with two services sharing priority 5. -/
def wMulti : MultiServiceECSFargateLoadBalancedConstructProps :=
  { appName := "my-app", tagEnv := "dev", hostedZoneId := "Z1",
    domainName := "example.com", apiSubdomainName := "api",
    ecsServices := [wSvcA, wSvcB] }

/-- Props containing two services with the same name. -/
def wDupNames : MultiServiceECSFargateLoadBalancedConstructProps :=
  { wMulti with ecsServices := [wSvcA, { wSvcA with port := 9000 }] }

/-- Invalid multi-service props: the app name has fewer than 3 characters. -/
def wBadMulti : MultiServiceECSFargateLoadBalancedConstructProps :=
  { wMulti with appName := "ab" }

/-- Valid props of the single-service private construct. -/
def wSingle : SingleServicePrivateECSFargateConstructProps :=
  { appName := "my-single-app", tagEnv := "dev",
    vpcCidrBlock := "10.0.0.0/16",
    service :=
      { name := "user-service", port := 8080, desiredCount := 1,
        version := "v1", envVariables := [],
        image := { path := "src/u", name := none, labels := none },
        healthCheckPath := "/health", fargateConfig := none,
        logGroupConfig := none } }

/-- Invalid single-service props: empty service list equivalent — here the
service port is out of range. -/
def wBadSingle : SingleServicePrivateECSFargateConstructProps :=
  { wSingle with service := { wSingle.service with port := 0 } }

/- Helper lemmas about sequential resource creation. -/

theorem addAll_ok_eq :
    ∀ {l acc rs' : List Resource}, addAll acc l = .ok rs' → rs' = acc ++ l := by
  intro l
  induction l with
  | nil =>
      intro acc rs' h
      simp only [addAll, Except.ok.injEq] at h
      simp [h]
  | cons r t ih =>
      intro acc rs' h
      simp only [addAll] at h
      by_cases hm : r.path ∈ acc.map Resource.path
      · rw [if_pos hm] at h
        exact absurd h (by simp)
      · rw [if_neg hm] at h
        have := ih h
        simp [this]

theorem addAll_ok_fresh :
    ∀ {l acc rs' : List Resource}, addAll acc l = .ok rs' →
      ∀ r ∈ l, r.path ∉ acc.map Resource.path := by
  intro l
  induction l with
  | nil => intro acc rs' _ r hr; exact absurd hr (by simp)
  | cons r t ih =>
      intro acc rs' h r' hr'
      simp only [addAll] at h
      by_cases hm : r.path ∈ acc.map Resource.path
      · rw [if_pos hm] at h
        exact absurd h (by simp)
      · rw [if_neg hm] at h
        rcases List.mem_cons.mp hr' with he | ht
        · rw [he]; exact hm
        · have := ih h r' ht
          intro hin
          exact this (by simp [hin])

theorem addAll_of_fresh :
    ∀ {l acc : List Resource}, (l.map Resource.path).Nodup →
      (∀ r ∈ l, r.path ∉ acc.map Resource.path) →
      addAll acc l = .ok (acc ++ l) := by
  intro l
  induction l with
  | nil => intro acc _ _; simp [addAll]
  | cons r t ih =>
      intro acc hnd hfr
      have hm : r.path ∉ acc.map Resource.path := hfr r (by simp)
      simp only [addAll, if_neg hm]
      have hnd' : (t.map Resource.path).Nodup := by
        simpa using (List.nodup_cons.mp (by simpa using hnd)).2
      have hhd : r.path ∉ t.map Resource.path :=
        (List.nodup_cons.mp (by simpa using hnd)).1
      have hfr' : ∀ r' ∈ t, r'.path ∉ (acc ++ [r]).map Resource.path := by
        intro r' hr' hin
        rw [List.map_append] at hin
        rcases List.mem_append.mp hin with h1 | h1
        · exact hfr r' (by simp [hr']) h1
        · have : r'.path = r.path := by simpa using h1
          exact hhd (this ▸ List.mem_map_of_mem Resource.path hr')
      have := ih hnd' hfr'
      rw [this]
      simp

theorem addAll_ok_nodup :
    ∀ {l acc rs' : List Resource}, addAll acc l = .ok rs' →
      (acc.map Resource.path).Nodup → (rs'.map Resource.path).Nodup := by
  intro l
  induction l with
  | nil =>
      intro acc rs' h h0
      simp only [addAll, Except.ok.injEq] at h
      rwa [← h]
  | cons r t ih =>
      intro acc rs' h h0
      simp only [addAll] at h
      by_cases hm : r.path ∈ acc.map Resource.path
      · rw [if_pos hm] at h
        exact absurd h (by simp)
      · rw [if_neg hm] at h
        refine ih h ?_
        rw [List.map_append]
        rw [List.nodup_append]
        refine ⟨h0, by simp, ?_⟩
        intro x hx
        simp only [List.map_cons, List.map_nil, List.mem_cons,
          List.not_mem_nil, or_false]
        intro he
        exact hm (he ▸ hx)

theorem addAll_nil_ok_iff (l : List Resource) :
    (∃ rs', addAll [] l = .ok rs') ↔ (l.map Resource.path).Nodup := by
  constructor
  · rintro ⟨rs', h⟩
    have he := addAll_ok_eq h
    have := addAll_ok_nodup h (by simp)
    rw [he] at this
    simpa using this
  · intro h
    exact ⟨[] ++ l, addAll_of_fresh h (by simp)⟩

/- Helper lemmas about JavaScript object-spread lookups. -/

theorem lookup_append (k : String) (l₁ l₂ : List (String × String)) :
    List.lookup k (l₁ ++ l₂) =
      ((List.lookup k l₁).orElse fun _ => List.lookup k l₂) := by
  induction l₁ with
  | nil => simp [List.lookup]
  | cons a t ih =>
      obtain ⟨a1, a2⟩ := a
      by_cases h : k = a1
      · simp [List.lookup, h]
      · have hb : (k == a1) = false := by simp [h]
        simp [List.lookup, hb, ih]

theorem lookup_overwritten (k : String) (base user : List (String × String)) :
    List.lookup k
        (base.map (fun kv => (kv.1, (List.lookup kv.1 user).getD kv.2))) =
      (List.lookup k base).map (fun v => (List.lookup k user).getD v) := by
  induction base with
  | nil => simp [List.lookup]
  | cons a t ih =>
      obtain ⟨a1, a2⟩ := a
      by_cases h : k = a1
      · simp [List.lookup, h]
      · have hb : (k == a1) = false := by simp [h]
        simp [List.lookup, hb, ih]

theorem lookup_fresh_entries (k : String) (base user : List (String × String)) :
    List.lookup k (user.filter (fun kv => (List.lookup kv.1 base).isNone)) =
      (if (List.lookup k base).isNone = true then List.lookup k user
       else none) := by
  induction user with
  | nil => simp [List.lookup]
  | cons a t ih =>
      obtain ⟨a1, a2⟩ := a
      by_cases h : k = a1
      · subst h
        cases hb : (List.lookup k base).isNone with
        | true => simp [List.filter, hb, List.lookup, ih]
        | false => simp [List.filter, hb, List.lookup, ih]
      · have hbeq : (k == a1) = false := by simp [h]
        cases hp : (List.lookup a1 base).isNone with
        | true => simp [List.filter, hp, List.lookup, hbeq, ih]
        | false => simp [List.filter, hp, List.lookup, hbeq, ih]

theorem lookup_spreadMerge (k : String) (base user : List (String × String)) :
    List.lookup k (spreadMerge base user) =
      ((List.lookup k user).orElse fun _ => List.lookup k base) := by
  unfold spreadMerge
  rw [lookup_append, lookup_overwritten, lookup_fresh_entries]
  cases hb : List.lookup k base with
  | none => cases hu : List.lookup k user <;> simp [hb, hu, Option.orElse]
  | some v => cases hu : List.lookup k user <;> simp [hb, hu, Option.orElse]

/- Helper lemmas about the paths of the generated resources. -/

theorem serviceResources_map_path (a t : String) (s : ECSServiceConfig) :
    (serviceResources a t s).map Resource.path =
      ([s.name ++ "-task-definition"] ::
       [s.name ++ "-log-group"] ::
       [s.name ++ "-task-definition", s.name ++ "-container"] ::
       [s.name ++ "-security-group"] ::
       [a ++ "-" ++ s.name ++ "-service"] ::
       [[a ++ "-" ++ t ++ "-load-balancer", a ++ "-https-listener",
         a ++ "-" ++ s.name ++ "-tg"]]) ++
      (scalingResources a s.name s.autoScalingConfig).map Resource.path := by
  simp [serviceResources, taskDefinitionResource, logGroupResource,
    containerResource, securityGroupResource, fargateServiceResource,
    listenerRuleResource]

theorem taskdef_path_mem (a t : String) (s : ECSServiceConfig) :
    [s.name ++ "-task-definition"] ∈
      (serviceResources a t s).map Resource.path := by
  rw [serviceResources_map_path]
  simp

/- Characterization of the multi-service constructor. -/

theorem construct_ok_iff
    (p : MultiServiceECSFargateLoadBalancedConstructProps) (region : String) :
    (∃ rs, MultiServiceECSFargateLoadBalancedConstruct p region = .ok rs) ↔
      (MultiServiceECSFargateLoadBalancedConstructPropsSchema p = true ∧
       ((multiResources p region).map Resource.path).Nodup) := by
  unfold MultiServiceECSFargateLoadBalancedConstruct
  by_cases hv : MultiServiceECSFargateLoadBalancedConstructPropsSchema p = true
  · rw [if_pos hv, addAll_nil_ok_iff]
    simp [hv]
  · rw [if_neg hv]
    simp [hv]

theorem construct_ok_resources
    {p : MultiServiceECSFargateLoadBalancedConstructProps} {region : String}
    {rs : List Resource}
    (h : MultiServiceECSFargateLoadBalancedConstruct p region = .ok rs) :
    rs = multiResources p region := by
  unfold MultiServiceECSFargateLoadBalancedConstruct at h
  by_cases hv : MultiServiceECSFargateLoadBalancedConstructPropsSchema p = true
  · rw [if_pos hv] at h
    have := addAll_ok_eq h
    simpa using this
  · rw [if_neg hv] at h
    exact absurd h (by simp)

/- Priorities do not feed into validation or construct ids. -/

theorem schema_setPriority (s : ECSServiceConfig) (q : Int) :
    ECSServiceConfigSchema { s with priority := q } =
      ECSServiceConfigSchema s := rfl

theorem all_schema_setPriority (f : Int → Int) :
    ∀ l : List ECSServiceConfig,
      (l.map (fun s => { s with priority := f s.priority })).all
          ECSServiceConfigSchema =
        l.all ECSServiceConfigSchema := by
  intro l
  induction l with
  | nil => rfl
  | cons x xs ih => simp [List.all_cons, ih, schema_setPriority]

theorem propsSchema_setPriorities (f : Int → Int)
    (p : MultiServiceECSFargateLoadBalancedConstructProps) :
    MultiServiceECSFargateLoadBalancedConstructPropsSchema
        (setPriorities f p) =
      MultiServiceECSFargateLoadBalancedConstructPropsSchema p := by
  unfold MultiServiceECSFargateLoadBalancedConstructPropsSchema setPriorities
  simp [List.length_map, all_schema_setPriority f p.ecsServices]

theorem servicePaths_setPriority (a t : String) (s : ECSServiceConfig)
    (q : Int) :
    (serviceResources a t { s with priority := q }).map Resource.path =
      (serviceResources a t s).map Resource.path := by
  rw [serviceResources_map_path, serviceResources_map_path]

theorem flatMapPaths_setPriority (a t : String) (f : Int → Int) :
    ∀ l : List ECSServiceConfig,
      l.flatMap (fun s =>
        (serviceResources a t { s with priority := f s.priority }).map
          Resource.path) =
      l.flatMap (fun s => (serviceResources a t s).map Resource.path) := by
  intro l
  induction l with
  | nil => rfl
  | cons x xs ih => simp [List.flatMap_cons, ih, servicePaths_setPriority]

theorem multiResources_paths_setPriorities (f : Int → Int)
    (p : MultiServiceECSFargateLoadBalancedConstructProps) (region : String) :
    (multiResources (setPriorities f p) region).map Resource.path =
      (multiResources p region).map Resource.path := by
  unfold multiResources
  rw [List.map_append, List.map_append]
  congr 1
  rw [List.map_flatMap, List.map_flatMap]
  have hs : (setPriorities f p).ecsServices =
      p.ecsServices.map (fun s => { s with priority := f s.priority }) := rfl
  have ha : (setPriorities f p).appName = p.appName := rfl
  have ht : (setPriorities f p).tagEnv = p.tagEnv := rfl
  rw [hs, ha, ht, List.flatMap_map]
  exact flatMapPaths_setPriority p.appName p.tagEnv f p.ecsServices

/- String helpers for construct-path disjointness. -/

theorem append_ne_of_getLast_ne {a b s t : String}
    (hs : s.data ≠ []) (ht : t.data ≠ [])
    (h : s.data.getLast? ≠ t.data.getLast?) : a ++ s ≠ b ++ t := by
  intro he
  apply h
  have hd : a.data ++ s.data = b.data ++ t.data := by
    have := congrArg String.data he
    rwa [String.data_append, String.data_append] at this
  calc s.data.getLast? = (a.data ++ s.data).getLast? :=
        (List.getLast?_append_of_ne_nil a.data hs).symm
    _ = (b.data ++ t.data).getLast? := by rw [hd]
    _ = t.data.getLast? := List.getLast?_append_of_ne_nil b.data ht

theorem append_ne_of_length_ne {n s t : String}
    (h : s.length ≠ t.length) : n ++ s ≠ n ++ t := by
  intro he
  apply h
  have := congrArg String.length he
  rw [String.length_append, String.length_append] at this
  omega

theorem singleton_path_ne {x y : String} (h : x ≠ y) :
    ([x] : List String) ≠ [y] := by
  intro he
  apply h
  simpa using he

/- The single-service constructor succeeds on valid props. -/

theorem single_paths_nodup
    (p : SingleServicePrivateECSFargateConstructProps) :
    ((singleClusterResource p :: singleServiceResources p).map
      Resource.path).Nodup := by
  have h12 : [p.appName ++ "-cluster"] ≠
      [p.service.name ++ "-task-definition"] :=
    singleton_path_ne (append_ne_of_getLast_ne (by decide) (by decide)
      (by decide))
  have h13 : [p.appName ++ "-cluster"] ≠ [p.service.name ++ "-log-group"] :=
    singleton_path_ne (append_ne_of_getLast_ne (by decide) (by decide)
      (by decide))
  have h15 : [p.appName ++ "-cluster"] ≠
      [p.service.name ++ "-security-group"] :=
    singleton_path_ne (append_ne_of_getLast_ne (by decide) (by decide)
      (by decide))
  have h16 : [p.appName ++ "-cluster"] ≠
      [p.appName ++ "-" ++ p.service.name ++ "-service"] :=
    singleton_path_ne (append_ne_of_getLast_ne (by decide) (by decide)
      (by decide))
  have h23 : [p.service.name ++ "-task-definition"] ≠
      [p.service.name ++ "-log-group"] :=
    singleton_path_ne (append_ne_of_getLast_ne (by decide) (by decide)
      (by decide))
  have h25 : [p.service.name ++ "-task-definition"] ≠
      [p.service.name ++ "-security-group"] :=
    singleton_path_ne (append_ne_of_getLast_ne (by decide) (by decide)
      (by decide))
  have h26 : [p.service.name ++ "-task-definition"] ≠
      [p.appName ++ "-" ++ p.service.name ++ "-service"] :=
    singleton_path_ne (append_ne_of_getLast_ne (by decide) (by decide)
      (by decide))
  have h35 : [p.service.name ++ "-log-group"] ≠
      [p.service.name ++ "-security-group"] :=
    singleton_path_ne (append_ne_of_length_ne (by decide))
  have h36 : [p.service.name ++ "-log-group"] ≠
      [p.appName ++ "-" ++ p.service.name ++ "-service"] :=
    singleton_path_ne (append_ne_of_getLast_ne (by decide) (by decide)
      (by decide))
  have h56 : [p.service.name ++ "-security-group"] ≠
      [p.appName ++ "-" ++ p.service.name ++ "-service"] :=
    singleton_path_ne (append_ne_of_getLast_ne (by decide) (by decide)
      (by decide))
  simp only [singleClusterResource, singleServiceResources,
    taskDefinitionResource, logGroupResource, containerResource,
    securityGroupResource, fargateServiceResource, List.map_cons,
    List.map_nil]
  simp only [List.nodup_cons, List.mem_cons, List.not_mem_nil, or_false,
    List.nodup_nil, and_true]
  refine ⟨?_, ?_, ?_, ?_, h56, by simp⟩
  · rintro (h | h | h | h | h)
    · exact h12 h
    · exact h13 h
    · simp at h
    · exact h15 h
    · exact h16 h
  · rintro (h | h | h | h)
    · exact h23 h
    · simp at h
    · exact h25 h
    · exact h26 h
  · rintro (h | h | h)
    · simp at h
    · exact h35 h
    · exact h36 h
  · rintro (h | h)
    · simp at h
    · simp at h

theorem singleSchema_service
    {p : SingleServicePrivateECSFargateConstructProps}
    (h : SingleServicePrivateECSFargateConstructPropsSchema p = true) :
    ECSServicePropsSchema p.service = true := by
  unfold SingleServicePrivateECSFargateConstructPropsSchema at h
  simp only [Bool.and_eq_true] at h
  exact h.2

theorem singleConstruct_ok
    (p : SingleServicePrivateECSFargateConstructProps)
    (h : SingleServicePrivateECSFargateConstructPropsSchema p = true) :
    SingleServicePrivateECSFargateConstruct p =
      .ok (singleClusterResource p :: singleServiceResources p) := by
  unfold SingleServicePrivateECSFargateConstruct
  rw [if_pos h]
  have h1 : addAll [] [singleClusterResource p] =
      .ok [singleClusterResource p] := by
    simp [addAll]
  rw [h1]
  show (if ECSServicePropsSchema p.service = true then _ else _) = _
  rw [if_pos (singleSchema_service h)]
  have hnd := single_paths_nodup p
  rw [List.map_cons, List.nodup_cons] at hnd
  have hfr : ∀ r ∈ singleServiceResources p,
      r.path ∉ ([singleClusterResource p]).map Resource.path := by
    intro r hr hin
    have : r.path = (singleClusterResource p).path := by simpa using hin
    exact hnd.1 (this ▸ List.mem_map_of_mem Resource.path hr)
  have := addAll_of_fresh hnd.2 hfr
  rw [this]
  simp

/- Extractor lemmas. -/

theorem containerEnvironments_append (rs1 rs2 : List Resource) :
    containerEnvironments (rs1 ++ rs2) =
      containerEnvironments rs1 ++ containerEnvironments rs2 :=
  List.filterMap_append rs1 rs2 _

theorem containerLabels_append (rs1 rs2 : List Resource) :
    containerLabels (rs1 ++ rs2) =
      containerLabels rs1 ++ containerLabels rs2 :=
  List.filterMap_append rs1 rs2 _

theorem containerEnvironments_scaling (a n : String)
    (asc : Option AutoScalingConfig) :
    containerEnvironments (scalingResources a n asc) = [] := by
  cases asc with
  | none => rfl
  | some cfg =>
      obtain ⟨mn, mx, tc, tm⟩ := cfg
      cases tc with
      | none =>
          cases tm with
          | none => rfl
          | some w =>
              by_cases hw : w = 0 <;>
                simp [scalingResources, containerEnvironments, hw]
      | some v =>
          cases tm with
          | none =>
              by_cases hv : v = 0 <;>
                simp [scalingResources, containerEnvironments, hv]
          | some w =>
              by_cases hv : v = 0 <;> by_cases hw : w = 0 <;>
                simp [scalingResources, containerEnvironments, hv, hw]

theorem containerLabels_scaling (a n : String)
    (asc : Option AutoScalingConfig) :
    containerLabels (scalingResources a n asc) = [] := by
  cases asc with
  | none => rfl
  | some cfg =>
      obtain ⟨mn, mx, tc, tm⟩ := cfg
      cases tc with
      | none =>
          cases tm with
          | none => rfl
          | some w =>
              by_cases hw : w = 0 <;>
                simp [scalingResources, containerLabels, hw]
      | some v =>
          cases tm with
          | none =>
              by_cases hv : v = 0 <;>
                simp [scalingResources, containerLabels, hv]
          | some w =>
              by_cases hv : v = 0 <;> by_cases hw : w = 0 <;>
                simp [scalingResources, containerLabels, hv, hw]

theorem containerEnvironments_service (a t : String)
    (svc : ECSServiceConfig) :
    containerEnvironments (serviceResources a t svc) =
      [mergedEnvironment svc.port svc.name svc.version svc.envVariables] := by
  unfold serviceResources
  rw [containerEnvironments_append, containerEnvironments_scaling]
  simp [containerEnvironments, taskDefinitionResource, logGroupResource,
    containerResource, securityGroupResource, fargateServiceResource,
    listenerRuleResource]

theorem containerLabels_service (a t : String) (svc : ECSServiceConfig) :
    containerLabels (serviceResources a t svc) =
      [svc.image.labels.getD
        (defaultDockerLabels (a ++ "-cluster") svc.name svc.version)] := by
  unfold serviceResources
  rw [containerLabels_append, containerLabels_scaling]
  simp [containerLabels, taskDefinitionResource, logGroupResource,
    containerResource, securityGroupResource, fargateServiceResource,
    listenerRuleResource]

theorem containerEnvironments_single
    (q : SingleServicePrivateECSFargateConstructProps) :
    containerEnvironments
        (singleClusterResource q :: singleServiceResources q) =
      [mergedEnvironment q.service.port q.service.name q.service.version
        q.service.envVariables] := by
  simp [containerEnvironments, singleClusterResource, singleServiceResources,
    taskDefinitionResource, logGroupResource, containerResource,
    securityGroupResource, fargateServiceResource]

theorem containerLabels_single
    (q : SingleServicePrivateECSFargateConstructProps) :
    containerLabels (singleClusterResource q :: singleServiceResources q) =
      [q.service.image.labels.getD
        (defaultDockerLabels (q.appName ++ "-cluster") q.service.name
          q.service.version)] := by
  simp [containerLabels, singleClusterResource, singleServiceResources,
    taskDefinitionResource, logGroupResource, containerResource,
    securityGroupResource, fargateServiceResource]

/- The claims. -/

/-- C1: for every service specification, the resolved container environment
is the auto-injected map (PORT from the port of the service, SERVICE_NAME from
its name, API_VERSION from its version) overlaid with the user-supplied
environment map, and on any key collision the user-supplied value wins:
looking up any key returns the user value when present, else the
auto-injected value.  This holds in both the multi-service and the
single-service private variant. -/
theorem environment_merge_user_wins
    (a t : String) (svc : ECSServiceConfig)
    (q : SingleServicePrivateECSFargateConstructProps) (k : String) :
    containerEnvironments (serviceResources a t svc) =
      [mergedEnvironment svc.port svc.name svc.version svc.envVariables] ∧
    containerEnvironments
        (singleClusterResource q :: singleServiceResources q) =
      [mergedEnvironment q.service.port q.service.name q.service.version
        q.service.envVariables] ∧
    List.lookup k
        (mergedEnvironment svc.port svc.name svc.version svc.envVariables) =
      ((List.lookup k svc.envVariables).orElse fun _ =>
        List.lookup k (autoEnv svc.port svc.name svc.version)) ∧
    List.lookup k
        (mergedEnvironment q.service.port q.service.name q.service.version
          q.service.envVariables) =
      ((List.lookup k q.service.envVariables).orElse fun _ =>
        List.lookup k
          (autoEnv q.service.port q.service.name q.service.version)) :=
  ⟨containerEnvironments_service a t svc,
   containerEnvironments_single q,
   lookup_spreadMerge k _ _,
   lookup_spreadMerge k _ _⟩

/-- C2 counterexample: a health-check block supplying only the path and
`interval: 10` resolves to timeout 5, retries 3 and start period 30 — the
omitted fields DO silently inherit the built-in defaults 5/3/30, contrary
to the claim that they do not. -/
theorem partial_health_check_counterexample :
    resolveHealthCheck ⟨"/health", some 10, none, none, none⟩ =
      ⟨"/health", 10, 5, 3, 30⟩ := by decide

/-- C2 (amended): for every health-check block supplying only the path and
a nonzero interval, the resolved health check has that interval, and the
omitted timeout, retries and start-period fields DO silently inherit the
built-in defaults 5/3/30 — the code defaults field by field with
JavaScript `||`, not block by block. -/
theorem partial_health_check_inherits_builtins (p : String) (i : Int)
    (hi : i ≠ 0) :
    resolveHealthCheck ⟨p, some i, none, none, none⟩ = ⟨p, i, 5, 3, 30⟩ := by
  simp [resolveHealthCheck, jsOrInt, hi]

/-- Witness for the amended C2 at a concrete input. -/
theorem partial_health_check_inherits_builtins_witness :
    resolveHealthCheck ⟨"/status", some 12, none, none, none⟩ =
      ⟨"/status", 12, 5, 3, 30⟩ :=
  partial_health_check_inherits_builtins ("/status") 12 (by decide)

/-- C3 counterexample: the schema accepts an explicit interval value of 0,
but the resolved interval is the built-in default 30, not the explicit 0 —
an explicit field value does NOT always take precedence, because the code
resolves fields with JavaScript `||` and 0 is falsy. -/
theorem explicit_zero_health_value_counterexample :
    ECSServiceConfigSchema wSvcZeroInterval = true ∧
    wSvcZeroInterval.healthCheckConfig.intervalSeconds = some 0 ∧
    (resolveHealthCheck wSvcZeroInterval.healthCheckConfig).intervalSeconds
      = 30 := by decide

/-- C3 (amended): every explicitly supplied NONZERO health-check timing
value (interval, timeout, retries, start period) takes precedence over the
built-in default; an explicitly supplied 0, though accepted by the
validator, falls back to the built-in default because the code resolves
each field with JavaScript `||`. -/
theorem explicit_nonzero_health_values_win (hc : HealthCheckConfig)
    (v : Int) (hv : v ≠ 0) :
    (hc.intervalSeconds = some v →
      (resolveHealthCheck hc).intervalSeconds = v) ∧
    (hc.timeoutSeconds = some v →
      (resolveHealthCheck hc).timeoutSeconds = v) ∧
    (hc.retries = some v → (resolveHealthCheck hc).retries = v) ∧
    (hc.startPeriodSeconds = some v →
      (resolveHealthCheck hc).startPeriodSeconds = v) := by
  refine ⟨?_, ?_, ?_, ?_⟩ <;> intro h <;>
    simp [resolveHealthCheck, jsOrInt, h, hv]

/-- Witness for the amended C3 at a concrete input. -/
theorem explicit_nonzero_health_values_win_witness :
    (resolveHealthCheck ⟨"/h", some 7, some 7, some 7, some 7⟩).intervalSeconds = 7 ∧
    (resolveHealthCheck ⟨"/h", some 7, some 7, some 7, some 7⟩).timeoutSeconds = 7 ∧
    (resolveHealthCheck ⟨"/h", some 7, some 7, some 7, some 7⟩).retries = 7 ∧
    (resolveHealthCheck ⟨"/h", some 7, some 7, some 7, some 7⟩).startPeriodSeconds = 7 := by
  have h := explicit_nonzero_health_values_win
    ⟨"/h", some 7, some 7, some 7, some 7⟩ 7 (by decide)
  exact ⟨h.1 rfl, h.2.1 rfl, h.2.2.1 rfl, h.2.2.2 rfl⟩

/-- C4: for every input-properties object the zod schema rejects, the
constructor fails with a validation error before any resource is derived:
the result is an error and no cluster, load balancer, listener, task
definition, service or parameter entry is produced, in both the
multi-service and the single-service private variant. -/
theorem invalid_props_abort_before_resources
    (p : MultiServiceECSFargateLoadBalancedConstructProps) (region : String)
    (q : SingleServicePrivateECSFargateConstructProps) :
    (MultiServiceECSFargateLoadBalancedConstructPropsSchema p = false →
      MultiServiceECSFargateLoadBalancedConstruct p region =
        .error ("Invalid input properties for MultiServiceECSFargateLoadBalancedConstruct.")) ∧
    (SingleServicePrivateECSFargateConstructPropsSchema q = false →
      SingleServicePrivateECSFargateConstruct q =
        .error ("Invalid input properties for SingleServicePrivateECSFargateConstruct")) := by
  constructor
  · intro h
    unfold MultiServiceECSFargateLoadBalancedConstruct
    rw [if_neg]
    simp [h]
  · intro h
    unfold SingleServicePrivateECSFargateConstruct
    rw [if_neg]
    simp [h]

/-- Witness for C4 at concrete invalid inputs (an app name of 2 characters
for the multi-service variant; port 0 for the private variant). -/
theorem invalid_props_abort_before_resources_witness :
    MultiServiceECSFargateLoadBalancedConstruct wBadMulti ("us-east-1") =
      .error ("Invalid input properties for MultiServiceECSFargateLoadBalancedConstruct.") ∧
    SingleServicePrivateECSFargateConstruct wBadSingle =
      .error ("Invalid input properties for SingleServicePrivateECSFargateConstruct") := by
  have h := invalid_props_abort_before_resources wBadMulti ("us-east-1")
    wBadSingle
  exact ⟨h.1 (by decide), h.2 (by decide)⟩

/-- C9: service port validation is boundary-inclusive: for every otherwise
valid service, port 1 and port 65535 pass the schema and port 0 and port
65536 fail it. -/
theorem port_validation_boundaries (c : ECSServiceConfig)
    (h : ECSServiceConfigSchema c = true) :
    ECSServiceConfigSchema { c with port := 1 } = true ∧
    ECSServiceConfigSchema { c with port := 65535 } = true ∧
    ECSServiceConfigSchema { c with port := 0 } = false ∧
    ECSServiceConfigSchema { c with port := 65536 } = false := by
  simp only [ECSServiceConfigSchema, Bool.and_eq_true, decide_eq_true_eq]
    at h
  refine ⟨?_, ?_, ?_, ?_⟩ <;>
    simp [ECSServiceConfigSchema] <;> simp_all

/-- Witness for C9 at a concrete service. -/
theorem port_validation_boundaries_witness :
    ECSServiceConfigSchema { wSvcA with port := 1 } = true ∧
    ECSServiceConfigSchema { wSvcA with port := 65535 } = true ∧
    ECSServiceConfigSchema { wSvcA with port := 0 } = false ∧
    ECSServiceConfigSchema { wSvcA with port := 65536 } = false :=
  port_validation_boundaries wSvcA (by decide)

/-- C10: if the labels map of the image is omitted, the docker
labels default to the triple cluster/service/version (with the cluster
name derived from the app name); if any labels map is supplied it replaces
that default wholesale, with no merging.  This holds in both variants. -/
theorem docker_labels_wholesale
    (a t : String) (svc : ECSServiceConfig)
    (q : SingleServicePrivateECSFargateConstructProps) :
    containerLabels (serviceResources a t svc) =
      [svc.image.labels.getD
        (defaultDockerLabels (a ++ "-cluster") svc.name svc.version)] ∧
    containerLabels (singleClusterResource q :: singleServiceResources q) =
      [q.service.image.labels.getD
        (defaultDockerLabels (q.appName ++ "-cluster") q.service.name
          q.service.version)] ∧
    (svc.image.labels = none →
      svc.image.labels.getD
          (defaultDockerLabels (a ++ "-cluster") svc.name svc.version) =
        [("cluster", a ++ "-cluster"), ("service", svc.name),
         ("version", svc.version)]) ∧
    (∀ m, svc.image.labels = some m →
      svc.image.labels.getD
          (defaultDockerLabels (a ++ "-cluster") svc.name svc.version) =
        m) := by
  refine ⟨containerLabels_service a t svc, containerLabels_single q,
    ?_, ?_⟩
  · intro h
    rw [h]
    rfl
  · intro m h
    rw [h]
    rfl

/-- Witness for C10: with the labels map omitted the default triple is
emitted; with a supplied map the supplied map replaces it wholesale. -/
theorem docker_labels_wholesale_witness :
    containerLabels (serviceResources ("my-app") ("dev") wSvcA) =
      [[("cluster", "my-app-cluster"), ("service", "auth-service"),
        ("version", "v1")]] ∧
    containerLabels (serviceResources ("my-app") ("dev") wSvcLabeled) =
      [[("team", "core")]] := by
  have h1 := docker_labels_wholesale ("my-app") ("dev") wSvcA wSingle
  have h2 := docker_labels_wholesale ("my-app") ("dev") wSvcLabeled wSingle
  constructor
  · calc containerLabels (serviceResources ("my-app") ("dev") wSvcA)
        = [wSvcA.image.labels.getD
            (defaultDockerLabels ("my-app" ++ "-cluster") wSvcA.name
              wSvcA.version)] := h1.1
      _ = [[("cluster", "my-app-cluster"), ("service", "auth-service"),
            ("version", "v1")]] := by decide
  · calc containerLabels (serviceResources ("my-app") ("dev") wSvcLabeled)
        = [wSvcLabeled.image.labels.getD
            (defaultDockerLabels ("my-app" ++ "-cluster") wSvcLabeled.name
              wSvcLabeled.version)] := h2.1
      _ = [[("team", "core")]] := by decide

/-- C5: for every topology specification containing two services with the
same name, compilation fails locally at compile time with no backend
involvement: the task definition of the second service reuses the construct id
of the first, and CDK rejects duplicate construct ids deterministically
during construction.  Service names are therefore unique in any
successfully compiled topology. -/
theorem duplicate_service_names_rejected
    (p : MultiServiceECSFargateLoadBalancedConstructProps) (region : String)
    (i j : Fin p.ecsServices.length) (hne : i ≠ j)
    (hdup : (p.ecsServices.get i).name = (p.ecsServices.get j).name) :
    ∃ e, MultiServiceECSFargateLoadBalancedConstruct p region = .error e := by
  cases hc : MultiServiceECSFargateLoadBalancedConstruct p region with
  | error e => exact ⟨e, rfl⟩
  | ok rs =>
      exfalso
      have hok : ∃ rs,
          MultiServiceECSFargateLoadBalancedConstruct p region = .ok rs :=
        ⟨rs, hc⟩
      have hnd := ((construct_ok_iff p region).mp hok).2
      rw [multiResources, List.map_append] at hnd
      have h2 := hnd.of_append_right
      rw [List.map_flatMap] at h2
      have h3 := (List.nodup_flatMap.mp h2).2
      have h4 := List.pairwise_iff_get.mp h3
      rcases lt_or_gt_of_ne hne with hij | hij
      · have hd := h4 i j hij
        have hx : [(p.ecsServices.get j).name ++ "-task-definition"] ∈
            (serviceResources p.appName p.tagEnv
              (p.ecsServices.get j)).map Resource.path :=
          taskdef_path_mem _ _ _
        rw [← hdup] at hx
        exact hd (taskdef_path_mem _ _ _) hx
      · have hd := h4 j i hij
        have hx : [(p.ecsServices.get i).name ++ "-task-definition"] ∈
            (serviceResources p.appName p.tagEnv
              (p.ecsServices.get i)).map Resource.path :=
          taskdef_path_mem _ _ _
        rw [hdup] at hx
        exact hd (taskdef_path_mem _ _ _) hx

/-- Witness for C5: two services named auth-service in one topology make
the constructor throw. -/
theorem duplicate_service_names_rejected_witness :
    ∃ e, MultiServiceECSFargateLoadBalancedConstruct wDupNames ("us-east-1") =
      .error e :=
  duplicate_service_names_rejected wDupNames ("us-east-1")
    ⟨0, by decide⟩ ⟨1, by decide⟩ (by decide) (by decide)

/-- C6: listener priorities are never validated locally: rewriting every
priority of every service — in particular making several services share one
priority — never changes whether compilation succeeds; and on success
the target group of every service is registered under the shared HTTPS listener
at the explicit priority of the service.  A duplicate-priority conflict is
deferred to the external backend. -/
theorem duplicate_priorities_deferred
    (p : MultiServiceECSFargateLoadBalancedConstructProps) (region : String)
    (f : Int → Int) :
    ((∃ rs, MultiServiceECSFargateLoadBalancedConstruct
        (setPriorities f p) region = .ok rs) ↔
      (∃ rs, MultiServiceECSFargateLoadBalancedConstruct p region =
        .ok rs)) ∧
    (∀ rs, MultiServiceECSFargateLoadBalancedConstruct p region = .ok rs →
      ∀ svc ∈ p.ecsServices,
        listenerRuleResource p.appName p.tagEnv svc ∈ rs) := by
  constructor
  · rw [construct_ok_iff, construct_ok_iff, propsSchema_setPriorities,
      multiResources_paths_setPriorities]
  · intro rs h svc hsvc
    rw [construct_ok_resources h]
    rw [multiResources]
    refine List.mem_append_right _ ?_
    refine List.mem_flatMap.mpr ⟨svc, hsvc, ?_⟩
    simp [serviceResources]

/-- Witness for C6: a topology whose two services share priority 5
compiles without error and both target groups are registered. -/
theorem duplicate_priorities_deferred_witness :
    ∃ rs, MultiServiceECSFargateLoadBalancedConstruct wMulti ("us-east-1") =
        .ok rs ∧
      listenerRuleResource ("my-app") ("dev") wSvcA ∈ rs ∧
      listenerRuleResource ("my-app") ("dev") wSvcB ∈ rs ∧
      wSvcA.priority = wSvcB.priority := by
  have h := duplicate_priorities_deferred wMulti ("us-east-1") (fun x => x)
  have hb : (MultiServiceECSFargateLoadBalancedConstruct wMulti
      "us-east-1").isOk = true := by decide
  cases hx : MultiServiceECSFargateLoadBalancedConstruct wMulti ("us-east-1")
    with
  | error e => rw [hx] at hb; simp [Except.isOk, Except.toBool] at hb
  | ok rs =>
      refine ⟨rs, rfl, ?_, ?_, by decide⟩
      · exact h.2 rs hx wSvcA (by decide)
      · exact h.2 rs hx wSvcB (by decide)

/-- C7: for every valid service with an autoscaling block, the min/max
capacity bounds are applied, a CPU-target policy is attached exactly when
`targetCpuUtilization` is present, and a memory-target policy exactly when
`targetMemoryUtilization` is present; a service without an autoscaling
block yields no scaling resources at all. -/
theorem autoscaling_policies_iff_targets
    (a t : String) (svc : ECSServiceConfig)
    (hv : ECSServiceConfigSchema svc = true) :
    (match svc.autoScalingConfig with
     | none =>
         scalableTargetBounds (serviceResources a t svc) = [] ∧
         cpuScalingPolicies (serviceResources a t svc) = [] ∧
         memoryScalingPolicies (serviceResources a t svc) = []
     | some cfg =>
         scalableTargetBounds (serviceResources a t svc) =
           [(cfg.minCapacity, cfg.maxCapacity)] ∧
         cpuScalingPolicies (serviceResources a t svc) =
           (match cfg.targetCpuUtilization with
            | none => []
            | some v => [v]) ∧
         memoryScalingPolicies (serviceResources a t svc) =
           (match cfg.targetMemoryUtilization with
            | none => []
            | some v => [v])) := by
  have hasc : AutoScalingConfigSchema svc.autoScalingConfig = true := by
    simp only [ECSServiceConfigSchema, Bool.and_eq_true] at hv
    exact hv.2
  cases hcfg : svc.autoScalingConfig with
  | none =>
      simp only [hcfg]
      refine ⟨?_, ?_, ?_⟩ <;>
        simp [serviceResources, scalingResources, hcfg,
          scalableTargetBounds, cpuScalingPolicies, memoryScalingPolicies,
          taskDefinitionResource, logGroupResource, containerResource,
          securityGroupResource, fargateServiceResource,
          listenerRuleResource]
  | some cfg =>
      rw [hcfg] at hasc
      obtain ⟨mn, mx, tc, tm⟩ := cfg
      simp only [hcfg]
      cases tc with
      | none =>
          cases tm with
          | none =>
              refine ⟨?_, ?_, ?_⟩ <;>
                simp [serviceResources, scalingResources, hcfg,
                  scalableTargetBounds, cpuScalingPolicies,
                  memoryScalingPolicies, taskDefinitionResource,
                  logGroupResource, containerResource,
                  securityGroupResource, fargateServiceResource,
                  listenerRuleResource]
          | some w =>
              simp only [AutoScalingConfigSchema, targetUtilizationOk,
                Bool.and_eq_true, decide_eq_true_eq] at hasc
              have hw : ¬ w = 0 := by omega
              refine ⟨?_, ?_, ?_⟩ <;>
                simp [serviceResources, scalingResources, hcfg, hw,
                  scalableTargetBounds, cpuScalingPolicies,
                  memoryScalingPolicies, taskDefinitionResource,
                  logGroupResource, containerResource,
                  securityGroupResource, fargateServiceResource,
                  listenerRuleResource]
      | some v =>
          cases tm with
          | none =>
              simp only [AutoScalingConfigSchema, targetUtilizationOk,
                Bool.and_eq_true, decide_eq_true_eq] at hasc
              have hv0 : ¬ v = 0 := by omega
              refine ⟨?_, ?_, ?_⟩ <;>
                simp [serviceResources, scalingResources, hcfg, hv0,
                  scalableTargetBounds, cpuScalingPolicies,
                  memoryScalingPolicies, taskDefinitionResource,
                  logGroupResource, containerResource,
                  securityGroupResource, fargateServiceResource,
                  listenerRuleResource]
          | some w =>
              simp only [AutoScalingConfigSchema, targetUtilizationOk,
                Bool.and_eq_true, decide_eq_true_eq] at hasc
              have hv0 : ¬ v = 0 := by omega
              have hw : ¬ w = 0 := by omega
              refine ⟨?_, ?_, ?_⟩ <;>
                simp [serviceResources, scalingResources, hcfg, hv0, hw,
                  scalableTargetBounds, cpuScalingPolicies,
                  memoryScalingPolicies, taskDefinitionResource,
                  logGroupResource, containerResource,
                  securityGroupResource, fargateServiceResource,
                  listenerRuleResource]

/-- Witness for C7: a service whose autoscaling block targets only memory
utilization yields the bounds, no CPU policy, and exactly one memory
policy. -/
theorem autoscaling_policies_iff_targets_witness :
    scalableTargetBounds (serviceResources ("my-app") ("dev") wSvcMemScale) =
      [(1, 3)] ∧
    cpuScalingPolicies (serviceResources ("my-app") ("dev") wSvcMemScale) =
      [] ∧
    memoryScalingPolicies
        (serviceResources ("my-app") ("dev") wSvcMemScale) = [80] := by
  have h := autoscaling_policies_iff_targets ("my-app") ("dev") wSvcMemScale
    (by decide)
  exact h

/-- C8: for every valid input to the single-service private variant, the
constructor succeeds and the produced resource set contains no
certificate, no DNS record, and no load balancer, listener or listener
rule; it does contain the cluster, a security group whose single ingress
source is the VPC CIDR block, and one non-public Fargate service. -/
theorem single_variant_no_routing_infra
    (p : SingleServicePrivateECSFargateConstructProps)
    (h : SingleServicePrivateECSFargateConstructPropsSchema p = true) :
    ∃ rs, SingleServicePrivateECSFargateConstruct p = .ok rs ∧
      (∀ r ∈ rs, isRoutingInfra r.desc = false) ∧
      (⟨[p.appName ++ "-cluster"],
        .cluster (p.appName ++ "-cluster")⟩ : Resource) ∈ rs ∧
      securityGroupResource p.service.name (.vpcCidr p.vpcCidrBlock)
        p.service.port ∈ rs ∧
      fargateServiceResource p.appName p.service.name
        p.service.desiredCount false ∈ rs := by
  refine ⟨singleClusterResource p :: singleServiceResources p,
    singleConstruct_ok p h, ?_, ?_, ?_, ?_⟩
  · intro r hr
    simp only [singleClusterResource, singleServiceResources,
      taskDefinitionResource, logGroupResource, containerResource,
      securityGroupResource, fargateServiceResource, List.mem_cons,
      List.not_mem_nil, or_false] at hr
    rcases hr with h1 | h1 | h1 | h1 | h1 | h1 <;> rw [h1] <;> rfl
  · simp [singleClusterResource]
  · simp [singleServiceResources, securityGroupResource]
  · simp [singleServiceResources, fargateServiceResource]

/-- Witness for C8 at a concrete valid input. -/
theorem single_variant_no_routing_infra_witness :
    ∃ rs, SingleServicePrivateECSFargateConstruct wSingle = .ok rs ∧
      (∀ r ∈ rs, isRoutingInfra r.desc = false) ∧
      (⟨[wSingle.appName ++ "-cluster"],
        .cluster (wSingle.appName ++ "-cluster")⟩ : Resource) ∈ rs ∧
      securityGroupResource wSingle.service.name
        (.vpcCidr wSingle.vpcCidrBlock) wSingle.service.port ∈ rs ∧
      fargateServiceResource wSingle.appName wSingle.service.name
        wSingle.service.desiredCount false ∈ rs :=
  single_variant_no_routing_infra wSingle (by decide)

end ECSConstructs
